import Mathlib

/-!
Shallow embedding of the iklearnedge backend's booking and payment-review
core: the Express route handlers in `src/routes/bookings` (file
`src/src/routes/subjects.js`, second half), the payments router
(`src/unnamed/part_000`), the `transaction` helper in
`src/src/models/database.js`, and the role middleware in
`src/src/middleware/auth.js`.

Tables are lists of rows; a handler is a pure function from the caller,
the request parameters and the database state to an HTTP-style result
paired with the post-state.  The `transaction` combinator mirrors the
BEGIN/COMMIT/ROLLBACK helper: a callback that throws (returns `none`)
leaves the visible state unchanged.
-/

namespace IkLearnEdge

/-- A row of the `users` table, as resolved by the `authenticate` middleware. -/
structure User where
  id : Nat
  role : String
  name : String
deriving DecidableEq, Repr

/-- A row of the `students` table. -/
structure Student where
  id : Nat
  user_id : Nat
  grade_level : String
deriving DecidableEq, Repr

/-- A row of the `teachers` table (`meeting_link` is nullable). -/
structure Teacher where
  id : Nat
  user_id : Nat
  meeting_link : Option String
deriving DecidableEq, Repr

/-- A row of the `subjects` table. -/
structure Subject where
  id : Nat
  name : String
  is_active : Bool
deriving DecidableEq, Repr

/-- A row of the `pricing_tiers` table. -/
structure PricingTier where
  subject_id : Nat
  grade_level : String
  price_per_hour : ℚ
deriving DecidableEq, Repr

/-- A row of the `bookings` table. -/
structure Booking where
  id : Nat
  student_id : Nat
  teacher_id : Nat
  subject_id : Nat
  grade_level : String
  scheduled_date : Nat
  duration : Nat
  price_per_hour : ℚ
  total_amount : ℤ
  status : String
  meeting_link : String
  notes : String
  created_at : Nat
  updated_at : Nat
deriving DecidableEq, Repr

/-- A row of the `payment_proofs` table. -/
structure PaymentProof where
  id : Nat
  booking_id : Nat
  file_url : String
  file_name : String
  status : String
  review_notes : String
  reviewed_at : Option Nat
  uploaded_at : Nat
deriving DecidableEq, Repr

/-- The relational store.  `nextBookingId` / `nextProofId` model the serial
primary-key sequences; `now` models the SQL `NOW()` clock, stable within a
single request. -/
structure DB where
  users : List User
  students : List Student
  teachers : List Teacher
  subjects : List Subject
  pricing_tiers : List PricingTier
  bookings : List Booking
  payment_proofs : List PaymentProof
  nextBookingId : Nat
  nextProofId : Nat
  now : Nat
deriving DecidableEq, Repr

/-- An HTTP-level outcome: `ok code data` for a success envelope,
`err code msg` for a `{success:false, message}` envelope. -/
inductive HResult (α : Type) where
  | ok (code : Nat) (data : α)
  | err (code : Nat) (msg : String)
deriving DecidableEq, Repr

/-- The `transaction` helper of `src/src/models/database.js`: BEGIN, run the
callback, COMMIT on success; on a thrown error (`none`) ROLLBACK, so the
visible state is the original one.  First component: the callback's outcome;
second: the database state visible after the call. -/
def transaction (callback : DB → Option DB) (db : DB) : Option DB × DB :=
  match callback db with
  | some db2 => (some db2, db2)
  | none => (none, db)

/-- SQL `UPDATE … WHERE p`: rewrite every row matching `p` with `f`. -/
def updateWhere {α : Type} (p : α → Bool) (f : α → α) (l : List α) : List α :=
  l.map fun a => if p a then f a else a

/-- JavaScript `x || d` on an optional string: `undefined`, `null` and the
empty string are falsy and give the default. -/
def jsOrDefault (o : Option String) (d : String) : String :=
  match o with
  | none => d
  | some s => if s = "" then d else s

/-- JavaScript `Math.round`: ties round toward positive infinity,
`Math.round q = ⌊q + 1/2⌋`. -/
def jsRound (q : ℚ) : ℤ := Rat.floor (q + 1 / 2)

/-- The five booking statuses accepted by `PUT /api/bookings/:id/status`. -/
def validStatuses : List String :=
  ["pending_payment", "payment_under_review", "confirmed", "completed", "cancelled"]

/-- The INNER JOIN chain of `GET /api/bookings` for a student caller:
teacher row, its user row, and the subject row must all exist. -/
def studentViewJoinOk (db : DB) (b : Booking) : Bool :=
  (match db.teachers.find? (fun t => t.id == b.teacher_id) with
   | none => false
   | some t => (db.users.find? (fun u => u.id == t.user_id)).isSome) &&
  (db.subjects.find? (fun s => s.id == b.subject_id)).isSome

/-- The INNER JOIN chain of `GET /api/bookings` for a teacher caller:
student row, its user row, and the subject row must all exist. -/
def teacherViewJoinOk (db : DB) (b : Booking) : Bool :=
  (match db.students.find? (fun st => st.id == b.student_id) with
   | none => false
   | some st => (db.users.find? (fun u => u.id == st.user_id)).isSome) &&
  (db.subjects.find? (fun s => s.id == b.subject_id)).isSome

/-- `ORDER BY b.created_at DESC`. -/
def createdDescLE (a b : Booking) : Prop := b.created_at ≤ a.created_at

instance : DecidableRel createdDescLE := fun a b => by
  unfold createdDescLE; infer_instance

instance : IsTotal Booking createdDescLE :=
  ⟨fun a b => Nat.le_total b.created_at a.created_at⟩

instance : IsTrans Booking createdDescLE :=
  ⟨fun _ _ _ h1 h2 => Nat.le_trans h2 h1⟩

/-- `GET /api/bookings` (router in `src/src/routes/subjects.js`): a student
sees their own bookings, a teacher theirs, everyone else is rejected 403. -/
def getBookings (u : User) (db : DB) : HResult (List Booking) × DB :=
  if u.role = "student" then
    match db.students.find? (fun st => st.user_id == u.id) with
    | none => (.err 404 "Student not found", db)
    | some st =>
      (.ok 200 (List.insertionSort createdDescLE
        (db.bookings.filter fun b => b.student_id == st.id && studentViewJoinOk db b)), db)
  else if u.role = "teacher" then
    match db.teachers.find? (fun t => t.user_id == u.id) with
    | none => (.err 404 "Teacher not found", db)
    | some t =>
      (.ok 200 (List.insertionSort createdDescLE
        (db.bookings.filter fun b => b.teacher_id == t.id && teacherViewJoinOk db b)), db)
  else (.err 403 "Not authorized", db)

/-- The body of `POST /api/bookings` after express-validator: `dateValid`
stands for the outcome of the external `isISO8601` check on the raw
`scheduledDate` string. -/
structure BookingReq where
  teacherId : Nat
  subjectId : Nat
  scheduledDate : Nat
  dateValid : Bool
  duration : Nat
  notes : Option String
deriving DecidableEq, Repr

/-- `POST /api/bookings`: price lookup for (subject, student's grade),
`total_amount = Math.round(price_per_hour * duration / 60)`, meeting-link
snapshot (empty when the teacher row or its link is missing), insert with
status `pending_payment`. -/
def createBooking (u : User) (r : BookingReq) (db : DB) : HResult Booking × DB :=
  if u.role ≠ "student" then (.err 403 "Access denied. Student only.", db)
  else if ¬(r.dateValid = true ∧ 30 ≤ r.duration ∧ r.duration ≤ 240) then
    (.err 400 "Validation failed", db)
  else
    match db.students.find? (fun st => st.user_id == u.id) with
    | none => (.err 404 "Student not found", db)
    | some st =>
      match db.pricing_tiers.find?
          (fun t => t.subject_id == r.subjectId && t.grade_level == st.grade_level) with
      | none => (.err 400 "Price not found for this subject and grade level", db)
      | some tier =>
        let meetingLink : String :=
          match db.teachers.find? (fun t => t.id == r.teacherId) with
          | none => ""
          | some t => jsOrDefault t.meeting_link ""
        let b : Booking :=
          { id := db.nextBookingId, student_id := st.id, teacher_id := r.teacherId,
            subject_id := r.subjectId, grade_level := st.grade_level,
            scheduled_date := r.scheduledDate, duration := r.duration,
            price_per_hour := tier.price_per_hour,
            total_amount := jsRound (tier.price_per_hour * r.duration / 60),
            status := "pending_payment", meeting_link := meetingLink,
            notes := (r.notes.getD ""), created_at := db.now, updated_at := db.now }
        (.ok 201 b,
         { db with bookings := db.bookings ++ [b], nextBookingId := db.nextBookingId + 1 })

/-- The inline ownership test of the booking routes: the caller's `students`
row, if any, references this booking. -/
def studentOwns (db : DB) (uid : Nat) (b : Booking) : Bool :=
  match db.students.find? (fun st => st.user_id == uid) with
  | some st => st.id == b.student_id
  | none => false

/-- The inline ownership test of the booking routes: the caller's `teachers`
row, if any, references this booking. -/
def teacherOwns (db : DB) (uid : Nat) (b : Booking) : Bool :=
  match db.teachers.find? (fun t => t.user_id == uid) with
  | some t => t.id == b.teacher_id
  | none => false

/-- `PUT /api/bookings/:id/status`: five-value status check, then the
role/ownership matrix (admin: anything; owning student: cancelled only;
owning teacher: confirmed/completed only; others 403), then the update. -/
def updateBookingStatus (u : User) (bid : Nat) (status : String) (db : DB) :
    HResult Booking × DB :=
  if ¬(validStatuses.contains status = true) then (.err 400 "Invalid status", db)
  else
    match db.bookings.find? (fun b => b.id == bid) with
    | none => (.err 404 "Booking not found", db)
    | some b =>
      let forbidden : Bool :=
        if u.role = "admin" then false
        else
          let isStudent := studentOwns db u.id b
          let isTeacher := teacherOwns db u.id b
          if isStudent && !(status == "cancelled") then true
          else if isTeacher && !(status == "confirmed" || status == "completed") then true
          else if !isStudent && !isTeacher then true
          else false
      if forbidden then (.err 403 "Not authorized", db)
      else
        (.ok 200 { b with status := status, updated_at := db.now },
         { db with bookings := (updateWhere (fun bb => bb.id == bid)
             (fun bb => { bb with status := status, updated_at := db.now }) db.bookings) })

/-- `POST /api/payments` (`src/unnamed/part_000`): student-only, required
fields, ownership-or-404 lookup, then one transaction inserting the
`pending` proof and setting the booking to `payment_under_review`.
`failInsert` / `failUpdate` inject a store failure at the corresponding
`client.query`, which the transaction helper turns into a full rollback. -/
def uploadPayment (failInsert failUpdate : Bool) (u : User)
    (bookingId : Option Nat) (fileUrl : Option String) (fileName : Option String)
    (db : DB) : HResult Unit × DB :=
  if u.role ≠ "student" then (.err 403 "Access denied. Student only.", db)
  else if bookingId = none ∨ bookingId = some 0 ∨ fileUrl = none ∨ fileUrl = some "" then
    (.err 400 "Booking ID and file URL are required", db)
  else
    let bid := bookingId.getD 0
    match db.students.find? (fun st => st.user_id == u.id) with
    | none => (.err 500 "Failed to upload payment proof", db)
    | some st =>
      match db.bookings.find? (fun b => b.id == bid && b.student_id == st.id) with
      | none => (.err 404 "Booking not found", db)
      | some _ =>
        let out := transaction (fun d =>
          if failInsert then none
          else
            let pp : PaymentProof :=
              { id := d.nextProofId, booking_id := bid, file_url := fileUrl.getD "",
                file_name := jsOrDefault fileName "payment-proof", status := "pending",
                review_notes := "", reviewed_at := none, uploaded_at := d.now }
            let d1 := { d with payment_proofs := d.payment_proofs ++ [pp],
                               nextProofId := d.nextProofId + 1 }
            if failUpdate then none
            else some { d1 with bookings := (updateWhere (fun b => b.id == bid)
                (fun b => { b with status := "payment_under_review", updated_at := d.now })
                d1.bookings) }) db
        match out.1 with
        | none => (.err 500 "Failed to upload payment proof", out.2)
        | some _ => (.ok 201 (), out.2)

/-- `PUT /api/payments/:id/verify` (`src/unnamed/part_000`): admin-only,
decision must be approved/rejected, then one transaction updating the proof,
reading back its `booking_id` (a missing row throws there and rolls the
update back), and moving the booking to `confirmed` or `pending_payment`. -/
def verifyPayment (u : User) (proofId : Nat) (status : String) (notes : Option String)
    (db : DB) : HResult Unit × DB :=
  if u.role ≠ "admin" then (.err 403 "Access denied. Admin only.", db)
  else if ¬(status = "approved" ∨ status = "rejected") then
    (.err 400 "Status must be approved or rejected", db)
  else
    let out := transaction (fun d =>
      let d1 := { d with payment_proofs := (updateWhere (fun pp => pp.id == proofId)
          (fun pp => { pp with status := status, review_notes := jsOrDefault notes "",
                               reviewed_at := some d.now }) d.payment_proofs) }
      match d1.payment_proofs.find? (fun pp => pp.id == proofId) with
      | none => none
      | some pp =>
        let newBookingStatus := if status = "approved" then "confirmed" else "pending_payment"
        some { d1 with bookings := (updateWhere (fun b => b.id == pp.booking_id)
            (fun b => { b with status := newBookingStatus, updated_at := d.now })
            d1.bookings) }) db
    match out.1 with
    | none => (.err 500 "Failed to verify payment", out.2)
    | some _ => (.ok 200 (), out.2)

/-- The JOIN chain of `GET /api/payments/pending`: booking, subject, student
and its user, teacher and its user must all exist for the proof's row to
survive the INNER JOINs. -/
def pendingJoinOk (db : DB) (pp : PaymentProof) : Bool :=
  match db.bookings.find? (fun b => b.id == pp.booking_id) with
  | none => false
  | some b =>
    (db.subjects.find? (fun s => s.id == b.subject_id)).isSome &&
    (match db.students.find? (fun st => st.id == b.student_id) with
     | none => false
     | some st => (db.users.find? (fun u => u.id == st.user_id)).isSome) &&
    (match db.teachers.find? (fun t => t.id == b.teacher_id) with
     | none => false
     | some t => (db.users.find? (fun u => u.id == t.user_id)).isSome)

/-- `ORDER BY pp.uploaded_at ASC`. -/
def uploadedLE (a b : PaymentProof) : Prop := a.uploaded_at ≤ b.uploaded_at

instance : DecidableRel uploadedLE := fun a b => by
  unfold uploadedLE; infer_instance

instance : IsTotal PaymentProof uploadedLE :=
  ⟨fun a b => Nat.le_total a.uploaded_at b.uploaded_at⟩

instance : IsTrans PaymentProof uploadedLE :=
  ⟨fun _ _ _ h1 h2 => Nat.le_trans h1 h2⟩

/-- `GET /api/payments/pending` (`src/unnamed/part_000`): admin-only; all
proofs with status `pending` that survive the join chain, oldest first. -/
def getPendingPayments (u : User) (db : DB) : HResult (List PaymentProof) × DB :=
  if u.role ≠ "admin" then (.err 403 "Access denied. Admin only.", db)
  else
    (.ok 200 (List.insertionSort uploadedLE
      (db.payment_proofs.filter fun pp => pp.status == "pending" && pendingJoinOk db pp)), db)

/-- Foreign-key well-formedness (spec §6: the schema enforces referential
integrity): every payment proof's booking, and that booking's subject,
student, teacher and their users, exist. -/
def DB.FKOk (db : DB) : Prop :=
  ∀ pp ∈ db.payment_proofs, pendingJoinOk db pp = true

instance (db : DB) : Decidable db.FKOk := by
  unfold DB.FKOk; infer_instance

/-! ### Sample rows used by the concrete witnesses -/

/-- Student profile of user 1, grade "Grade 6-8 (Middle)". -/
def sampleStudent : Student := ⟨10, 1, "Grade 6-8 (Middle)"⟩

/-- Teacher profile of user 2, with a meeting link set. -/
def sampleTeacher : Teacher := ⟨20, 2, some "https://meet.example/x"⟩

/-- Math priced at 18 per hour for the sample student's grade. -/
def sampleTier : PricingTier := ⟨30, "Grade 6-8 (Middle)", 18⟩

/-- A store with one student, one teacher, one priced subject, no bookings. -/
def sampleDB : DB :=
  { users := [⟨1, "student", "S"⟩, ⟨2, "teacher", "T"⟩, ⟨3, "admin", "A"⟩],
    students := [sampleStudent], teachers := [sampleTeacher],
    subjects := [⟨30, "Math", true⟩], pricing_tiers := [sampleTier],
    bookings := [], payment_proofs := [],
    nextBookingId := 100, nextProofId := 200, now := 1000 }

/-- The booking created by the sample student: 90 minutes of Math at 18/hr. -/
def sampleBooking : Booking :=
  { id := 100, student_id := 10, teacher_id := 20, subject_id := 30,
    grade_level := "Grade 6-8 (Middle)", scheduled_date := 5000, duration := 90,
    price_per_hour := 18, total_amount := 27, status := "pending_payment",
    meeting_link := "https://meet.example/x", notes := "",
    created_at := 1000, updated_at := 1000 }

/-- `sampleDB` after the sample booking was inserted. -/
def sampleDB1 : DB :=
  { sampleDB with bookings := [sampleBooking], nextBookingId := 101 }

/-- The payment proof the sample student uploads for booking 100. -/
def sampleProof : PaymentProof :=
  ⟨200, 100, "http://file", "payment-proof", "pending", "", none, 1000⟩

/-- `sampleDB1` after the proof upload: proof pending, booking under review. -/
def sampleDB2 : DB :=
  { sampleDB1 with
      bookings := [{ sampleBooking with status := "payment_under_review" }],
      payment_proofs := [sampleProof], nextProofId := 201 }

/-! ### List helper lemmas -/

/-- A `WHERE` clause matching no row leaves the table unchanged. -/
theorem updateWhere_of_none {α : Type} (p : α → Bool) (f : α → α) :
    ∀ l : List α, (∀ a ∈ l, p a = false) → updateWhere p f l = l
  | [], _ => rfl
  | a :: l, h => by
    have ha : p a = false := h a (by simp)
    have hl := updateWhere_of_none p f l (fun x hx => h x (by simp [hx]))
    simp only [updateWhere, List.map_cons, ha, Bool.false_eq_true, if_false, List.cons.injEq,
      true_and]
    simpa [updateWhere] using hl

/-- Looking a row up by id after an id-preserving `UPDATE … WHERE id = i`
returns the updated first match. -/
theorem find?_updateWhere {α : Type} (idOf : α → Nat) (i : Nat) (f : α → α)
    (hf : ∀ a, idOf (f a) = idOf a) :
    ∀ l : List α,
      (updateWhere (fun a => idOf a == i) f l).find? (fun a => idOf a == i)
        = ((l.find? fun a => idOf a == i).map f)
  | [] => rfl
  | a :: l => by
    by_cases h : idOf a = i
    · simp [updateWhere, List.find?_cons, h, hf]
    · simpa [updateWhere, List.find?_cons, h, hf] using
        find?_updateWhere idOf i f hf l

/-! ### Claim theorems -/

/-- C7: for every caller, booking id and database state, an update request
with a status outside the five defined booking statuses is rejected with
HTTP 400 "Invalid status", and the database — whatever it contains, even if
the booking does not exist — is returned untouched: the rejection precedes
every store read and write. -/
theorem updateBookingStatus_invalid_status (u : User) (bid : Nat) (status : String)
    (db : DB) (h : validStatuses.contains status = false) :
    updateBookingStatus u bid status db = (.err 400 "Invalid status", db) := by
  have h' : status ∉ validStatuses := by simpa using h
  unfold updateBookingStatus
  simp [h']

/-- Witness for C7: status "refunded" is rejected 400 on the sample store. -/
theorem updateBookingStatus_invalid_status_witness :
    updateBookingStatus ⟨3, "admin", "A"⟩ 100 "refunded" sampleDB1
      = (.err 400 "Invalid status", sampleDB1) :=
  updateBookingStatus_invalid_status ⟨3, "admin", "A"⟩ 100 "refunded" sampleDB1 (by decide)

/-- C3 (amended): when no pricing tier exists for the requested subject and
the student's grade level, `POST /api/bookings` fails with HTTP 400
"Price not found for this subject and grade level" (InvalidArgument, not
NotFound), and no booking is inserted. -/
theorem createBooking_no_tier (u : User) (r : BookingReq) (db : DB) (st : Student)
    (hrole : u.role = "student")
    (hdate : r.dateValid = true) (hdmin : 30 ≤ r.duration) (hdmax : r.duration ≤ 240)
    (hst : db.students.find? (fun s => s.user_id == u.id) = some st)
    (htier : db.pricing_tiers.find?
      (fun t => t.subject_id == r.subjectId && t.grade_level == st.grade_level) = none) :
    createBooking u r db
      = (.err 400 "Price not found for this subject and grade level", db) := by
  unfold createBooking
  simp [hrole, hdate, hdmin, hdmax, hst, htier]

/-- Witness for C3 (amended): booking Math for the sample student fails 400
on a store whose pricing table is empty. -/
theorem createBooking_no_tier_witness :
    createBooking ⟨1, "student", "S"⟩ ⟨20, 30, 5000, true, 90, none⟩
        { sampleDB with pricing_tiers := [] }
      = (.err 400 "Price not found for this subject and grade level",
         { sampleDB with pricing_tiers := [] }) :=
  createBooking_no_tier ⟨1, "student", "S"⟩ ⟨20, 30, 5000, true, 90, none⟩
    { sampleDB with pricing_tiers := [] } sampleStudent rfl rfl (by decide) (by decide)
    (by decide) (by decide)

/-- Counterexample for C3 as stated: the claim announces HTTP 404 NotFound,
but on a concrete store with a student and no pricing tier the handler
answers HTTP 400, so the NotFound part of the claim is false (the
"no booking inserted" part does hold, as the returned state shows). -/
theorem createBooking_no_tier_404_cex :
    createBooking ⟨1, "student", "S"⟩ ⟨20, 30, 5000, true, 90, none⟩
        { sampleDB with pricing_tiers := [] }
      = (.err 400 "Price not found for this subject and grade level",
         { sampleDB with pricing_tiers := [] }) := by
  decide

/-- C6 (amended): every caller of `GET /api/bookings` whose role is neither
"student" nor "teacher" — the admin role included — is rejected with HTTP
403 "Not authorized" and the state is unchanged; admins are not served the
system-wide booking list through this path. -/
theorem getBookings_other_role_forbidden (u : User) (db : DB)
    (hs : u.role ≠ "student") (ht : u.role ≠ "teacher") :
    getBookings u db = (.err 403 "Not authorized", db) := by
  unfold getBookings
  simp [hs, ht]

/-- Witness for C6 (amended): a caller with the unknown role "auditor". -/
theorem getBookings_other_role_forbidden_witness :
    getBookings ⟨7, "auditor", "X"⟩ sampleDB1 = (.err 403 "Not authorized", sampleDB1) :=
  getBookings_other_role_forbidden ⟨7, "auditor", "X"⟩ sampleDB1 (by decide) (by decide)

/-- C2: for a student caller with a profile and a priced (subject, grade)
pair, `POST /api/bookings` inserts — and returns with HTTP 201 — a booking
whose `total_amount` is `Math.round(price_per_hour * duration / 60)`, whose
status is `pending_payment`, and whose meeting link is the teacher's current
one (empty when unset), leaving every other table untouched. -/
theorem createBooking_priced (u : User) (r : BookingReq) (db : DB)
    (st : Student) (tier : PricingTier) (t : Teacher)
    (hrole : u.role = "student")
    (hdate : r.dateValid = true) (hdmin : 30 ≤ r.duration) (hdmax : r.duration ≤ 240)
    (hst : db.students.find? (fun s => s.user_id == u.id) = some st)
    (htier : db.pricing_tiers.find?
      (fun tr => tr.subject_id == r.subjectId && tr.grade_level == st.grade_level) = some tier)
    (hteach : db.teachers.find? (fun tt => tt.id == r.teacherId) = some t) :
    createBooking u r db
      = (.ok 201
           { id := db.nextBookingId, student_id := st.id, teacher_id := r.teacherId,
             subject_id := r.subjectId, grade_level := st.grade_level,
             scheduled_date := r.scheduledDate, duration := r.duration,
             price_per_hour := tier.price_per_hour,
             total_amount := jsRound (tier.price_per_hour * r.duration / 60),
             status := "pending_payment",
             meeting_link := jsOrDefault t.meeting_link "",
             notes := r.notes.getD "", created_at := db.now, updated_at := db.now },
         { db with
             bookings := db.bookings ++
               [{ id := db.nextBookingId, student_id := st.id, teacher_id := r.teacherId,
                  subject_id := r.subjectId, grade_level := st.grade_level,
                  scheduled_date := r.scheduledDate, duration := r.duration,
                  price_per_hour := tier.price_per_hour,
                  total_amount := jsRound (tier.price_per_hour * r.duration / 60),
                  status := "pending_payment",
                  meeting_link := jsOrDefault t.meeting_link "",
                  notes := r.notes.getD "", created_at := db.now, updated_at := db.now }],
             nextBookingId := db.nextBookingId + 1 }) := by
  unfold createBooking
  simp [hrole, hdate, hdmin, hdmax, hst, htier, hteach]

/-- Witness for C2, the spec's scenario: Math priced 18/hr for 90 minutes
gives `total_amount = 27` and status `pending_payment`. -/
theorem createBooking_priced_witness :
    createBooking ⟨1, "student", "S"⟩ ⟨20, 30, 5000, true, 90, none⟩ sampleDB
      = (.ok 201 sampleBooking, sampleDB1)
      ∧ sampleBooking.total_amount = 27 := by
  refine ⟨?_, rfl⟩
  have h := createBooking_priced ⟨1, "student", "S"⟩ ⟨20, 30, 5000, true, 90, none⟩
    sampleDB sampleStudent sampleTier sampleTeacher rfl rfl (by decide) (by decide)
    (by decide) (by decide) (by decide)
  rw [h]
  norm_num [jsRound, Rat.floor, sampleBooking, sampleDB1, sampleDB, sampleStudent,
    sampleTier, sampleTeacher, jsOrDefault]
  exact fun hx => absurd hx (by decide)

/-- C8: a student caller submitting a payment proof gets the very same 404
"Booking not found" response — with the store unchanged — whether the
referenced booking is absent or exists but belongs to another student's
profile, so the two cases are indistinguishable from outside. -/
theorem uploadPayment_foreign_or_missing (fi fu : Bool) (u : User) (bid : Nat)
    (url : String) (fn : Option String) (db : DB) (st : Student)
    (hrole : u.role = "student") (hbid : bid ≠ 0) (hurl : url ≠ "")
    (hst : db.students.find? (fun s => s.user_id == u.id) = some st)
    (hforeign : ∀ b ∈ db.bookings, b.id = bid → b.student_id ≠ st.id) :
    uploadPayment fi fu u (some bid) (some url) fn db
      = (.err 404 "Booking not found", db) := by
  have hfind : db.bookings.find? (fun b => b.id == bid && b.student_id == st.id) = none := by
    rw [List.find?_eq_none]
    intro b hb
    simp only [Bool.and_eq_true, beq_iff_eq, not_and]
    exact fun h1 => hforeign b hb h1
  unfold uploadPayment
  simp [hrole, hbid, hurl, hst, hfind]

/-- Witness for C8: booking 100 belongs to student profile 10; the caller's
profile is 11, so the upload is answered 404 with no state change. -/
theorem uploadPayment_foreign_or_missing_witness :
    uploadPayment false false ⟨4, "student", "S2"⟩ (some 100) (some "http://f") none
        { sampleDB1 with students := [⟨11, 4, "G"⟩] }
      = (.err 404 "Booking not found", { sampleDB1 with students := [⟨11, 4, "G"⟩] }) :=
  uploadPayment_foreign_or_missing false false ⟨4, "student", "S2"⟩ 100 "http://f" none
    { sampleDB1 with students := [⟨11, 4, "G"⟩] } ⟨11, 4, "G"⟩ rfl (by decide) (by decide)
    (by decide) (by decide)

/-- C10: an admin verifying a proof id that matches no `payment_proofs` row
gets HTTP 500 (the zero-row update is followed by a read of
`rows[0].booking_id`, which throws), not 404, and the rollback leaves every
proof and every booking exactly as before. -/
theorem verifyPayment_missing_proof (u : User) (pid : Nat) (status : String)
    (notes : Option String) (db : DB)
    (hrole : u.role = "admin") (hstatus : status = "approved" ∨ status = "rejected")
    (hmiss : ∀ pp ∈ db.payment_proofs, pp.id ≠ pid) :
    verifyPayment u pid status notes db = (.err 500 "Failed to verify payment", db) := by
  have hupd : updateWhere (fun pp => pp.id == pid)
      (fun pp => { pp with status := status, review_notes := jsOrDefault notes "",
                           reviewed_at := some db.now }) db.payment_proofs
      = db.payment_proofs :=
    updateWhere_of_none _ _ _ (fun a ha => by simp [hmiss a ha])
  have hfind : db.payment_proofs.find? (fun pp => pp.id == pid) = none := by
    rw [List.find?_eq_none]
    intro pp hp
    simp [hmiss pp hp]
  unfold verifyPayment transaction
  simp [hrole, hstatus, hupd, hfind]

/-- Witness for C10: verifying the absent proof id 999 on the post-upload
sample store answers 500 and changes nothing. -/
theorem verifyPayment_missing_proof_witness :
    verifyPayment ⟨3, "admin", "A"⟩ 999 "approved" none sampleDB2
      = (.err 500 "Failed to verify payment", sampleDB2) :=
  verifyPayment_missing_proof ⟨3, "admin", "A"⟩ 999 "approved" none sampleDB2 rfl
    (Or.inl rfl) (by decide)

/-- C1: for an admin caller, a valid decision and an existing proof whose
parent booking exists (referential integrity), the verify endpoint answers
200 and afterwards the proof and its parent booking always carry the paired
statuses: approved goes with confirmed, rejected goes with pending_payment —
both updated inside the one committed transaction, never one without the
other. -/
theorem verifyPayment_pair (u : User) (pid : Nat) (decision : String)
    (notes : Option String) (db : DB) (p : PaymentProof) (b : Booking)
    (hrole : u.role = "admin")
    (hdec : decision = "approved" ∨ decision = "rejected")
    (hp : db.payment_proofs.find? (fun pp => pp.id == pid) = some p)
    (hb : db.bookings.find? (fun bb => bb.id == p.booking_id) = some b) :
    (verifyPayment u pid decision notes db).1 = .ok 200 ()
    ∧ (verifyPayment u pid decision notes db).2.payment_proofs.find?
        (fun pp => pp.id == pid)
        = some { p with status := decision, review_notes := jsOrDefault notes "",
                        reviewed_at := some db.now }
    ∧ (verifyPayment u pid decision notes db).2.bookings.find?
        (fun bb => bb.id == p.booking_id)
        = some { b with
            status := if decision = "approved" then "confirmed" else "pending_payment",
            updated_at := db.now } := by
  have hfp := find?_updateWhere (fun pp : PaymentProof => pp.id) pid
    (fun pp =>
      { pp with status := decision, review_notes := jsOrDefault notes "",
                reviewed_at := some db.now })
    (fun a => rfl) db.payment_proofs
  rw [hp] at hfp
  have hfb := find?_updateWhere (fun bb : Booking => bb.id) p.booking_id
    (fun bb =>
      { bb with status := if decision = "approved" then "confirmed" else "pending_payment",
                updated_at := db.now })
    (fun a => rfl) db.bookings
  rw [hb] at hfb
  unfold verifyPayment transaction
  simp only [hrole, ne_eq, not_true_eq_false, if_false, not_not_intro hdec, hfp,
    Option.map_some']
  refine ⟨trivial, trivial, by simpa using hfb⟩

/-- Witness for C1: approving the sample pending proof leaves proof 200
approved and booking 100 confirmed together. -/
theorem verifyPayment_pair_witness :
    (verifyPayment ⟨3, "admin", "A"⟩ 200 "approved" none sampleDB2).1 = .ok 200 ()
    ∧ (verifyPayment ⟨3, "admin", "A"⟩ 200 "approved" none sampleDB2).2.payment_proofs.find?
        (fun pp => pp.id == 200)
        = some { sampleProof with
                   status := "approved", review_notes := "", reviewed_at := some 1000 }
    ∧ (verifyPayment ⟨3, "admin", "A"⟩ 200 "approved" none sampleDB2).2.bookings.find?
        (fun bb => bb.id == 100)
        = some { sampleBooking with status := "confirmed", updated_at := 1000 } := by
  have h := verifyPayment_pair ⟨3, "admin", "A"⟩ 200 "approved" none sampleDB2
    sampleProof { sampleBooking with status := "payment_under_review" } rfl (Or.inl rfl)
    (by decide) (by decide)
  simpa [jsOrDefault, sampleDB2] using h

/-- C4: for a student submitting a proof for their own booking, the two
writes live in one transaction: with no injected failure the proof row
(status `pending`) is appended and the booking moves to
`payment_under_review` in the committed state; if either write fails the
whole unit rolls back and the response is 500 with the store exactly as
before — neither write is ever visible without the other. -/
theorem uploadPayment_atomic (fi fu : Bool) (u : User) (bid : Nat) (url : String)
    (fn : Option String) (db : DB) (st : Student) (b : Booking)
    (hrole : u.role = "student") (hbid : bid ≠ 0) (hurl : url ≠ "")
    (hst : db.students.find? (fun s => s.user_id == u.id) = some st)
    (hown : db.bookings.find? (fun bb => bb.id == bid && bb.student_id == st.id) = some b)
    (hfirst : db.bookings.find? (fun bb => bb.id == bid) = some b) :
    (fi = false → fu = false →
       uploadPayment fi fu u (some bid) (some url) fn db
         = (.ok 201 (),
            { db with
                payment_proofs := db.payment_proofs ++
                  [{ id := db.nextProofId, booking_id := bid, file_url := url,
                     file_name := jsOrDefault fn "payment-proof", status := "pending",
                     review_notes := "", reviewed_at := none, uploaded_at := db.now }],
                nextProofId := db.nextProofId + 1,
                bookings := (updateWhere (fun bb => bb.id == bid)
                  (fun bb =>
                    { bb with status := "payment_under_review", updated_at := db.now })
                  db.bookings) })
       ∧ (uploadPayment fi fu u (some bid) (some url) fn db).2.bookings.find?
           (fun bb => bb.id == bid)
           = some { b with status := "payment_under_review", updated_at := db.now })
    ∧ ((fi = true ∨ fu = true) →
       uploadPayment fi fu u (some bid) (some url) fn db
         = (.err 500 "Failed to upload payment proof", db)) := by
  have hfb := find?_updateWhere (fun bb : Booking => bb.id) bid
    (fun bb => { bb with status := "payment_under_review", updated_at := db.now })
    (fun a => rfl) db.bookings
  rw [hfirst] at hfb
  unfold uploadPayment transaction
  cases fi <;> cases fu <;>
    simp [hrole, hbid, hurl, hst, hown, hfb]

/-- Witness for C4: the sample student uploads a proof for booking 100 with
no injected failure; the proof row appears and the booking is under review. -/
theorem uploadPayment_atomic_witness :
    uploadPayment false false ⟨1, "student", "S"⟩ (some 100) (some "http://file") none
        sampleDB1
      = (.ok 201 (), sampleDB2)
    ∧ sampleDB2.bookings.find? (fun bb => bb.id == 100)
        = some { sampleBooking with status := "payment_under_review", updated_at := 1000 } := by
  have h := uploadPayment_atomic false false ⟨1, "student", "S"⟩ 100 "http://file" none
    sampleDB1 sampleStudent sampleBooking rfl (by decide) (by decide) (by decide)
    (by decide) (by decide)
  have h1 := (h.1 rfl rfl).1
  refine ⟨?_, by decide⟩
  rw [h1]
  decide

/-- C5: the status-update authorization matrix, for an existing booking and
a valid target status: an admin may set any status; a caller owning the
booking through their student profile (and not its teacher) may set only
`cancelled`; a caller owning it through their teacher profile (and not its
student) may set only `confirmed` or `completed`; every non-admin caller
owning it through neither profile is rejected 403 — and every rejected call
leaves the store untouched. -/
theorem updateBookingStatus_matrix (u : User) (bid : Nat) (status : String) (db : DB)
    (b : Booking)
    (hvalid : validStatuses.contains status = true)
    (hb : db.bookings.find? (fun bb => bb.id == bid) = some b) :
    (u.role = "admin" →
       updateBookingStatus u bid status db
         = (.ok 200 { b with status := status, updated_at := db.now },
            { db with bookings := (updateWhere (fun bb => bb.id == bid)
                (fun bb => { bb with status := status, updated_at := db.now })
                db.bookings) }))
    ∧ (u.role ≠ "admin" → studentOwns db u.id b = true → teacherOwns db u.id b = false →
       status ≠ "cancelled" →
       updateBookingStatus u bid status db = (.err 403 "Not authorized", db))
    ∧ (u.role ≠ "admin" → studentOwns db u.id b = true → teacherOwns db u.id b = false →
       status = "cancelled" →
       updateBookingStatus u bid status db
         = (.ok 200 { b with status := status, updated_at := db.now },
            { db with bookings := (updateWhere (fun bb => bb.id == bid)
                (fun bb => { bb with status := status, updated_at := db.now })
                db.bookings) }))
    ∧ (u.role ≠ "admin" → teacherOwns db u.id b = true → studentOwns db u.id b = false →
       (status = "confirmed" ∨ status = "completed") →
       updateBookingStatus u bid status db
         = (.ok 200 { b with status := status, updated_at := db.now },
            { db with bookings := (updateWhere (fun bb => bb.id == bid)
                (fun bb => { bb with status := status, updated_at := db.now })
                db.bookings) }))
    ∧ (u.role ≠ "admin" → teacherOwns db u.id b = true → studentOwns db u.id b = false →
       status ≠ "confirmed" → status ≠ "completed" →
       updateBookingStatus u bid status db = (.err 403 "Not authorized", db))
    ∧ (u.role ≠ "admin" → studentOwns db u.id b = false → teacherOwns db u.id b = false →
       updateBookingStatus u bid status db = (.err 403 "Not authorized", db)) := by
  have hv : status ∈ validStatuses := by simpa using hvalid
  unfold updateBookingStatus
  refine ⟨fun hadm => ?_, fun hadm hso hto hnc => ?_, fun hadm hso hto hc => ?_,
    fun hadm hto hso hcc => ?_, fun hadm hto hso hnc hnc2 => ?_, fun hadm hso hto => ?_⟩
  · simp [hv, hb, hadm]
  · simp [hv, hb, hadm, hso, hto, hnc]
  · simp [hv, hb, hadm, hso, hto, hc]
    decide
  · rcases hcc with hc | hc <;> simp [hv, hb, hadm, hso, hto, hc] <;> decide
  · simp [hv, hb, hadm, hso, hto, hnc, hnc2]
  · simp [hv, hb, hadm, hso, hto]

/-- Witness for C5: a non-admin caller owning the sample booking through
neither profile is rejected 403. -/
theorem updateBookingStatus_matrix_witness :
    updateBookingStatus ⟨99, "student", "X"⟩ 100 "completed" sampleDB1
      = (.err 403 "Not authorized", sampleDB1) :=
  (updateBookingStatus_matrix ⟨99, "student", "X"⟩ 100 "completed" sampleDB1 sampleBooking
    (by decide) (by decide)).2.2.2.2.2 (by decide) (by decide) (by decide)

/-- C9: the pending-payments listing is admin-only — any other role gets 403
with the state unchanged — and, on a store satisfying referential integrity,
an admin receives exactly the proofs whose status is `pending`, sorted by
uploaded timestamp ascending (oldest first). -/
theorem getPendingPayments_spec (u : User) (db : DB) :
    (u.role ≠ "admin" →
       getPendingPayments u db = (.err 403 "Access denied. Admin only.", db))
    ∧ (u.role = "admin" → db.FKOk →
       getPendingPayments u db
         = (.ok 200 (List.insertionSort uploadedLE
             (db.payment_proofs.filter fun pp => pp.status == "pending")), db)
       ∧ (List.insertionSort uploadedLE
           (db.payment_proofs.filter fun pp => pp.status == "pending")).Perm
           (db.payment_proofs.filter fun pp => pp.status == "pending")
       ∧ List.Sorted uploadedLE (List.insertionSort uploadedLE
           (db.payment_proofs.filter fun pp => pp.status == "pending"))) := by
  constructor
  · intro hne
    unfold getPendingPayments
    simp [hne]
  · intro hadm hfk
    have hfilter : db.payment_proofs.filter
        (fun pp => pp.status == "pending" && pendingJoinOk db pp)
        = db.payment_proofs.filter fun pp => pp.status == "pending" :=
      List.filter_congr fun pp hpp => by simp [hfk pp hpp]
    refine ⟨?_, List.perm_insertionSort uploadedLE _, List.sorted_insertionSort uploadedLE _⟩
    unfold getPendingPayments
    simp [hadm, hfilter]

/-- Witness for C9: on a store with two pending proofs uploaded out of
order, the admin listing returns them oldest first. -/
theorem getPendingPayments_spec_witness :
    getPendingPayments ⟨3, "admin", "A"⟩
        { sampleDB2 with payment_proofs := [⟨201, 100, "u2", "f2", "pending", "", none, 1500⟩,
                                            sampleProof] }
      = (.ok 200 [sampleProof, ⟨201, 100, "u2", "f2", "pending", "", none, 1500⟩],
         { sampleDB2 with payment_proofs := [⟨201, 100, "u2", "f2", "pending", "", none, 1500⟩,
                                             sampleProof] }) := by
  have h := (getPendingPayments_spec ⟨3, "admin", "A"⟩
    { sampleDB2 with payment_proofs := [⟨201, 100, "u2", "f2", "pending", "", none, 1500⟩,
                                        sampleProof] }).2 rfl (by decide)
  rw [h.1]
  decide

/-- Counterexample for C6 as stated: on a store holding one booking, an
admin caller of `GET /api/bookings` receives 403 "Not authorized" rather
than the list of all bookings the claim promises. -/
theorem getBookings_admin_forbidden_cex :
    getBookings ⟨3, "admin", "A"⟩ sampleDB1 = (.err 403 "Not authorized", sampleDB1)
      ∧ sampleDB1.bookings = [sampleBooking] := by
  exact ⟨by decide, rfl⟩

end IkLearnEdge
